import Mathlib

/-
Verification development for the intent-routing and multi-agent
coordination core of the guitar-mastery application.

The embedding follows the source modules:
  * src/orchestrator/router.py      (intent classification)
  * src/orchestrator/context.py     (conversation context)
  * src/orchestrator/coordinator.py (agent coordination)

Python floats in the router are modelled exactly: every score is a sum
of the weights 3.0, 1.0 and 1.5, hence a multiple of 0.5, and is kept
here as a natural number of half-units (6, 2 and 3).  For such operands
every comparison performed by the router coincides with exact arithmetic;
in particular the threshold test `s2 >= s1 * 0.6` agrees with
`5 * s2 >= 3 * s1` at every reachable operand pair (the double nearest to
0.6 times each reachable score rounds to the exact product), so no
floating-point rounding behaviour is lost.
-/

namespace GuitarMastery

/-
Pattern engine. The router matches messages against Python regular
expressions of the restricted shape `\b(alt1|alt2|...)\b`, where each
alternative is a word built from literal characters, `\s*`, `\d` and `.`,
and always begins and ends with a word character.  For alternatives of
this shape the leading and trailing `\b` assertions reduce to: the
character before the match (if any) and the character after the match
(if any) are not word characters.
-/

def isWordChar (c : Char) : Bool := c.isAlphanum || c == '_'

def isSpaceChar (c : Char) : Bool :=
  c == ' ' || c == '\t' || c == '\n' || c == '\r' || c == '\x0b' || c == '\x0c'

inductive Atom where
  | lit (c : Char)
  | anyChar
  | wsStar
  | digit
deriving DecidableEq

/-- Remainders reachable by consuming zero or more whitespace characters. -/
def wsSplits : List Char → List (List Char)
  | [] => [[]]
  | c :: cs => if isSpaceChar c then (c :: cs) :: wsSplits cs else [c :: cs]

/-- All remainders after matching the atom list at the front of the input. -/
def matchAtoms : List Atom → List Char → List (List Char)
  | [], rest => [rest]
  | Atom.lit _ :: _, [] => []
  | Atom.lit c :: as, x :: xs => if x == c then matchAtoms as xs else []
  | Atom.anyChar :: _, [] => []
  | Atom.anyChar :: as, x :: xs => if x == '\n' then [] else matchAtoms as xs
  | Atom.digit :: _, [] => []
  | Atom.digit :: as, x :: xs => if x.isDigit then matchAtoms as xs else []
  | Atom.wsStar :: as, rest =>
      ((wsSplits rest).map (fun r => matchAtoms as r)).flatten

/-- Condition for the trailing word boundary: end of input or a non-word char. -/
def endBoundary : List Char → Bool
  | [] => true
  | c :: _ => !(isWordChar c)

/-- Condition for the leading word boundary given the previous character. -/
def startBoundary : Option Char → Bool
  | none => true
  | some c => !(isWordChar c)

/-- Does one of the alternatives match at the current position, ending at a word boundary? -/
def matchHere (alts : List (List Atom)) (cs : List Char) : Bool :=
  alts.any (fun a => (matchAtoms a cs).any endBoundary)

/-- Scan the input for a match at any position (Python re.search). -/
def searchFrom (alts : List (List Atom)) : Option Char → List Char → Bool
  | prev, [] => startBoundary prev && matchHere alts []
  | prev, c :: rest =>
      (startBoundary prev && matchHere alts (c :: rest)) || searchFrom alts (some c) rest

def reSearch (alts : List (List Atom)) (cs : List Char) : Bool :=
  searchFrom alts none cs

/-- Literal characters of a string as atoms. -/
def lit (s : String) : List Atom := s.data.map Atom.lit

/-- Substring containment, modelling the Python expression `needle in hay`. -/
def beginsWith : List Char → List Char → Bool
  | [], _ => true
  | _ :: _, [] => false
  | a :: as, b :: bs => a == b && beginsWith as bs

def containsSub (needle : List Char) : List Char → Bool
  | [] => beginsWith needle []
  | c :: cs => beginsWith needle (c :: cs) || containsSub needle cs

/-
Router data, transcribed from src/orchestrator/router.py.  The Python
entity set contains "les paul" twice; as a set this is a single element,
and substring matching is unaffected, so it is listed once here.
Apostrophes inside entity names are spelled via `apos`.
-/

def apos : String := String.singleton (Char.ofNat 39)

def LUTHIER_ENTITIES : List String := [
  "torres", "martin", "gibson", "fender",
  "d" ++ apos ++ "angelico", "d" ++ apos ++ "aquisto",
  "benedetto", "prs", "paul reed smith", "rickenbacker", "gretsch",
  "epiphone", "ibanez", "yamaha", "taylor", "collings", "santa cruz",
  "bourgeois", "huss and dalton", "lowden", "mcpherson", "lloyd loar",
  "leo fender", "les paul", "orville gibson", "ted mccarty", "seth lover",
  "telecaster", "stratocaster", "sg", "es-335", "l-5",
  "dreadnought", "parlor guitar", "archtop"]

def JAZZ_THEORY_PATTERNS : List (List (List Atom)) := [
  [lit "chord", lit "scale", lit "mode", lit "arpeggio", lit "interval", lit "key"],
  [lit "dorian", lit "mixolydian", lit "lydian", lit "phrygian", lit "locrian",
   lit "ionian", lit "aeolian"],
  [lit "bebop", lit "altered", lit "diminished",
   lit "whole" ++ [Atom.wsStar] ++ lit "tone", lit "pentatonic", lit "chromatic"],
  [lit "ii-v-i", lit "ii" ++ [Atom.wsStar] ++ lit "v" ++ [Atom.wsStar] ++ lit "i",
   lit "2-5-1", lit "two" ++ [Atom.wsStar] ++ lit "five" ++ [Atom.wsStar] ++ lit "one"],
  [lit "improvise", lit "improvisation", lit "solo", lit "comping", lit "voicing"],
  [lit "practice", lit "routine", lit "exercise", lit "lesson", lit "warmup", lit "warm-up"],
  [lit "rut", lit "plateau", lit "stuck", lit "bored", lit "stale", lit "uninspired"],
  [lit "jazz", lit "swing", lit "bebop", lit "bossa", lit "ballad", lit "blues"],
  [lit "wes montgomery", lit "joe pass", lit "pat metheny", lit "jim hall", lit "grant green"],
  [lit "charlie parker", lit "miles davis", lit "john coltrane", lit "bill evans"],
  [lit "quiz", lit "test", lit "question"],
  [lit "voice" ++ [Atom.wsStar] ++ lit "lead", lit "guide" ++ [Atom.wsStar] ++ lit "tone",
   lit "enclosure", lit "targeting"]]

def DATA_QUERY_PATTERNS : List (List (List Atom)) := [
  [lit "how many", lit "list all", lit "show me", lit "find all", lit "search for", lit "count"],
  [lit "which ones", lit "what are all", lit "give me all", lit "display"],
  [lit "database", lit "query", lit "data", lit "records", lit "entries"],
  [lit "filter", lit "sort", lit "between", lit "greater than", lit "less than"],
  [lit "difficulty " ++ [Atom.digit], lit "category", lit "type"]]

def HISTORY_PATTERNS : List (List (List Atom)) := [
  [lit "history", lit "historical", lit "evolution", lit "origin", lit "invented", lit "created"],
  [lit "luthier", lit "builder", lit "craftsman", lit "workshop", lit "shop"],
  [lit "tonewood", lit "wood", lit "spruce", lit "mahogany", lit "rosewood", lit "maple",
   lit "ebony"],
  [lit "pickup", lit "humbucker", lit "single" ++ [Atom.anyChar] ++ lit "coil", lit "p-90",
   lit "piezo", lit "active"],
  [lit "construction", lit "bracing", lit "neck" ++ [Atom.wsStar] ++ lit "joint", lit "frets",
   lit "nut", lit "saddle"],
  [lit "setup", lit "intonation", lit "action", lit "truss" ++ [Atom.wsStar] ++ lit "rod",
   lit "string" ++ [Atom.wsStar] ++ lit "gauge"],
  [lit "repair", lit "restore", lit "maintenance", lit "restring", lit "adjust"]]

def SYSTEM_PATTERNS : List (List (List Atom)) := [
  [lit "benchmark", lit "progress", lit "status", lit "health", lit "error", lit "bug"],
  [lit "documentation", lit "changelog", lit "log", lit "report"],
  [lit "test", lit "deploy", lit "build", lit "version"]]

/-- RoutingDecision dataclass from router.py. -/
structure RoutingDecision where
  agent_name : String
  confidence : Rat
  intent_category : String
  reasoning : String
  is_multi_agent : Bool := false
  secondary_agents : Option (List String) := none
deriving DecidableEq

/-- Strip: drop leading and trailing whitespace (Python str.strip). -/
def pyStrip (l : List Char) : List Char :=
  ((l.dropWhile isSpaceChar).reverse.dropWhile isSpaceChar).reverse

/-- Lower-cased, stripped message as a character list, modelling
`user_message.lower().strip()` (ASCII case mapping). -/
def normalizeMsg (s : String) : List Char := pyStrip (s.data.map Char.toLower)

/-- Entity check: does the message contain any known luthier entity?
Python iterates the set and breaks after the first hit, adding 3.0 once;
only the existence of a hit affects the score. -/
def luthierEntityHit (m : List Char) : Bool :=
  LUTHIER_ENTITIES.any (fun e => containsSub e.data m)

/-- Score contributed by one pattern group: each matching pattern adds the
group weight `w` (given in half-units: 1.0 is 2, 1.5 is 3). -/
def groupScore (patterns : List (List (List Atom))) (w : Nat) (m : List Char) : Nat :=
  patterns.foldl (fun s p => if reSearch p m then s + w else s) 0

/-- Luthier score: the 3.0 entity bonus (6 half-units, added once) plus
1.0 (2 half-units) per matching history pattern. -/
def luthierScore (m : List Char) : Nat :=
  (if luthierEntityHit m then 6 else 0) + groupScore HISTORY_PATTERNS 2 m

def jazzScore (m : List Char) : Nat := groupScore JAZZ_THEORY_PATTERNS 2 m

def sqlScore (m : List Char) : Nat := groupScore DATA_QUERY_PATTERNS 3 m

def devScore (m : List Char) : Nat := groupScore SYSTEM_PATTERNS 2 m

/-- Scores dictionary in its Python insertion order. -/
def computeScores (m : List Char) : List (String × Nat) :=
  [("luthier_historian", luthierScore m),
   ("jazz_teacher", jazzScore m),
   ("sql_expert", sqlScore m),
   ("dev_pm", devScore m)]

/-- Python `max(scores.values())` over a nonempty list (0 for the empty list,
which never occurs). -/
def maxScoreOf : List (String × Nat) → Nat
  | [] => 0
  | x :: xs => xs.foldl (fun acc y => max acc y.2) x.2

/-- Python `max(scores, key=scores.get)`: the first key attaining the maximal
value in iteration order (the fold updates only on a strictly greater value). -/
def pyMaxByScore : List (String × Nat) → String
  | [] => ""
  | x :: xs => (xs.foldl (fun acc y => if acc.2 < y.2 then y else acc) x).1

/-- Stable descending insertion, modelling Python `sorted(..., reverse=True)`
restricted to what the router needs: elements that compare equal keep their
original relative order. -/
def insertByScoreDesc (x : String × Nat) : List (String × Nat) → List (String × Nat)
  | [] => [x]
  | y :: ys => if y.2 ≤ x.2 then x :: y :: ys else y :: insertByScoreDesc x ys

def sortByScoreDesc : List (String × Nat) → List (String × Nat)
  | [] => []
  | x :: xs => insertByScoreDesc x (sortByScoreDesc xs)

/-- Multi-agent test of classify_intent: at least two entries, a nonzero
second-highest score, and second >= top * 0.6 (in half-units:
5 * second >= 3 * top). -/
def multiCondition (scores : List (String × Nat)) : Bool :=
  let sorted_scores := sortByScoreDesc scores
  let second := sorted_scores.getD 1 ("", 0)
  let top := sorted_scores.getD 0 ("", 0)
  decide (1 < sorted_scores.length) && decide (0 < second.2) &&
    decide (5 * second.2 ≥ 3 * top.2)

/-- Secondary agents: every agent beyond the sorted head with nonzero score,
in descending score order (`[s[0] for s in sorted_scores[1:] if s[1] > 0]`). -/
def secondaryList (scores : List (String × Nat)) : List String :=
  (((sortByScoreDesc scores).drop 1).filter (fun s => 0 < s.2)).map (fun s => s.1)

/-- Category mapping (`intent_map.get(winner, "general")`), with the
history-vs-setup distinction driven by the first two history patterns. -/
def intentCategory (m : List Char) (winner : String) : String :=
  if winner = "luthier_historian" then
    (if (HISTORY_PATTERNS.take 2).any (fun p => reSearch p m) then
      "guitar_history" else "guitar_setup")
  else if winner = "jazz_teacher" then "music_theory"
  else if winner = "sql_expert" then "data_query"
  else if winner = "dev_pm" then "system"
  else "general"

/-- Decision built on the nonzero branch of classify_intent.  The confidence
`min(1.0, max_score / 5.0)` divides by 10 because scores are in half-units. -/
def nonzeroDecision (m : List Char) (scores : List (String × Nat)) : RoutingDecision :=
  { agent_name := pyMaxByScore scores
    confidence := min 1 ((maxScoreOf scores : Rat) / 10)
    intent_category := intentCategory m (pyMaxByScore scores)
    reasoning := "Pattern scores"
    is_multi_agent := multiCondition scores
    secondary_agents :=
      if multiCondition scores then some (secondaryList scores) else none }

/-- classify_intent from router.py.  The f-string diagnostic `reasoning`
carries no logic; its dictionary formatting is elided to a fixed prefix. -/
def classify_intent (user_message : String) : RoutingDecision :=
  let message_lower := normalizeMsg user_message
  let scores := computeScores message_lower
  let max_score := maxScoreOf scores
  if max_score = 0 then
    { agent_name := "jazz_teacher"
      confidence := 0.5
      intent_category := "general"
      reasoning := "No strong pattern match; defaulting to jazz teacher as the most general music agent." }
  else
    nonzeroDecision message_lower scores

/-
Conversation context, transcribed from src/orchestrator/context.py.
Timestamps are opaque strings here; `add_message` receives the current
time as an argument (the source reads the clock, which carries no logic).
Dictionary-valued fields (quiz, lesson, metadata) are modelled as
association lists of strings.
-/

structure Message where
  role : String
  content : String
  agent : Option String
  timestamp : String
deriving DecidableEq

structure RoleContent where
  role : String
  content : String
deriving DecidableEq

structure ConversationContext where
  session_id : String := ""
  user_id : Option String := none
  user_skill_level : String := "intermediate"
  conversation_history : List Message := []
  current_topic : Option String := none
  active_lesson : Option (List (String × String)) := none
  active_quiz : Option (List (String × String)) := none
  agent_routing_history : List String := []
  metadata : List (String × String) := []
  created_at : String := ""
deriving DecidableEq

/-- Python slice `l[-n:]` for a natural n: the whole list when n = 0
(since `-0 == 0`), otherwise the last `min n (length l)` elements. -/
def pyTail (l : List α) (n : Nat) : List α :=
  if n = 0 then l else l.drop (l.length - n)

def ConversationContext.add_message (c : ConversationContext)
    (role content : String) (agent : Option String) (now : String) :
    ConversationContext :=
  { c with conversation_history := c.conversation_history ++
      [{ role := role, content := content, agent := agent, timestamp := now }] }

/-- get_recent_messages from context.py: the slice `conversation_history[-n:]`
reduced to role/content pairs. -/
def ConversationContext.get_recent_messages (c : ConversationContext) (n : Nat) :
    List RoleContent :=
  (pyTail c.conversation_history n).map (fun msg => { role := msg.role, content := msg.content })

def ConversationContext.record_agent_used (c : ConversationContext) (agent_name : String) :
    ConversationContext :=
  { c with agent_routing_history := c.agent_routing_history ++ [agent_name] }

/-- Shape of the dictionary produced by ConversationContext.to_dict. -/
structure CtxDict where
  session_id : String
  user_id : Option String
  user_skill_level : String
  current_topic : Option String
  active_lesson : Option (List (String × String))
  active_quiz : Option (List (String × String))
  agent_history : List String
  message_count : Nat
deriving DecidableEq

def ConversationContext.to_dict (c : ConversationContext) : CtxDict :=
  { session_id := c.session_id
    user_id := c.user_id
    user_skill_level := c.user_skill_level
    current_topic := c.current_topic
    active_lesson := c.active_lesson
    active_quiz := c.active_quiz
    agent_history := pyTail c.agent_routing_history 5
    message_count := c.conversation_history.length }

def ConversationContext.start_quiz (c : ConversationContext)
    (quiz_data : List (String × String)) : ConversationContext :=
  { c with active_quiz := some quiz_data }

def ConversationContext.end_quiz (c : ConversationContext) :
    Option (List (String × String)) × ConversationContext :=
  (c.active_quiz, { c with active_quiz := none })

def ConversationContext.start_lesson (c : ConversationContext)
    (lesson_data : List (String × String)) : ConversationContext :=
  { c with active_lesson := some lesson_data }

def ConversationContext.end_lesson (c : ConversationContext) :
    Option (List (String × String)) × ConversationContext :=
  (c.active_lesson, { c with active_lesson := none })

/-
Coordinator, transcribed from src/orchestrator/coordinator.py.  An agent
capability is a role string plus a `think` function from the arguments the
coordinator passes to the outcome of the awaited call: a successful
AgentResponse, a timeout (asyncio.TimeoutError), or another exception.
The wall clock (latency telemetry) carries no logic and is elided to 0.
-/

structure AgentResponse where
  content : String
  agent_name : String
  confidence : Rat := 1
  tools_used : List String := []
  data : List (String × String) := []
  suggestions : List String := []
  tokens_input : Nat := 0
  tokens_output : Nat := 0
  latency_ms : Nat := 0
  error : Option String := none
deriving DecidableEq

inductive CallOutcome where
  | ok (r : AgentResponse)
  | timeout
  | exn (e : String)
deriving DecidableEq

structure AgentSpec where
  role : String
  think : String → CtxDict → List RoleContent → CallOutcome

/-- Routing metadata echoed back on the response (coordinator.py step 3). -/
structure RoutingInfo where
  agent : String
  confidence : Rat
  category : String
  is_multi : Bool
deriving DecidableEq

structure OrchestratorResponse where
  content : String
  primary_agent : String
  all_agents_used : List String
  session_id : String
  suggestions : List String := []
  data : List (String × String) := []
  quiz : Option (List (String × String)) := none
  total_tokens_input : Nat := 0
  total_tokens_output : Nat := 0
  total_latency_ms : Nat := 0
  routing_decision : Option RoutingInfo := none
deriving DecidableEq

structure AgentCoordinator where
  agents : String → Option AgentSpec
  max_agents_per_request : Nat := 3
  timeout_seconds : Nat := 30

/-- Python dict.update: entries of the second dict overwrite same-key
entries of the first. -/
def pyUpdate (d e : List (String × String)) : List (String × String) :=
  d.filter (fun kv => e.all (fun kv2 => kv2.1 ≠ kv.1)) ++ e

def notFoundContent : String :=
  "I" ++ apos ++ "m sorry, I couldn" ++ apos ++
    "t find the right expert to help with that. Could you rephrase your question?"

def timeoutContent : String :=
  "The request took too long. Please try a simpler question or try again."

def errorContent : String :=
  "I encountered an error processing your request. Please try again."

def noResponseContent : String :=
  "I couldn" ++ apos ++ "t get a response. Please try again."

def execute_single_agent (co : AgentCoordinator) (message : String)
    (routing : RoutingDecision) (ctx : ConversationContext) : OrchestratorResponse :=
  match co.agents routing.agent_name with
  | none =>
    { content := notFoundContent
      primary_agent := "orchestrator"
      all_agents_used := []
      session_id := ctx.session_id }
  | some agent =>
    match agent.think message ctx.to_dict (ctx.get_recent_messages 10) with
    | CallOutcome.ok result =>
      { content := result.content
        primary_agent := result.agent_name
        all_agents_used := [result.agent_name]
        session_id := ctx.session_id
        suggestions := result.suggestions
        data := result.data
        total_tokens_input := result.tokens_input
        total_tokens_output := result.tokens_output }
    | CallOutcome.timeout =>
      { content := timeoutContent
        primary_agent := "orchestrator"
        all_agents_used := [routing.agent_name]
        session_id := ctx.session_id }
    | CallOutcome.exn _ =>
      { content := errorContent
        primary_agent := "orchestrator"
        all_agents_used := [routing.agent_name]
        session_id := ctx.session_id }

/-- Working set of the multi-agent path: the primary agent plus at most
`max_agents_per_request - 1` secondaries, in classifier order. -/
def selectedNames (co : AgentCoordinator) (routing : RoutingDecision) : List String :=
  routing.agent_name :: (routing.secondary_agents.getD []).take (co.max_agents_per_request - 1)

/-- Outcomes of the gathered tasks, in task-creation order: one task per
selected name that is present in the capability map. -/
def buildTasks (co : AgentCoordinator) (message : String) (ctx : ConversationContext)
    (names : List String) : List CallOutcome :=
  names.filterMap (fun n =>
    (co.agents n).map (fun a => a.think message ctx.to_dict (ctx.get_recent_messages 10)))

structure AggState where
  contents : List String
  all_suggestions : List String
  all_data : List (String × String)
  total_tokens_in : Nat
  total_tokens_out : Nat
  agents_used : List String
deriving DecidableEq

/-- Aggregation loop of _execute_multi_agent.  The Python loop
`for i, result in enumerate(results)` pairs results[i] with agent_names[i];
since `len(results) <= len(agent_names)` always holds, this is exactly an
iteration over `zip results agent_names`.  Exceptions (timeouts included,
as gather uses return_exceptions=True) are logged and skipped; for a
successful result the label lookup `self.agents[agent_names[i]]` raises
KeyError when the key is absent, modelled as Except.error. -/
def aggregateResults (co : AgentCoordinator) :
    List (CallOutcome × String) → AggState → Except String AggState
  | [], st => Except.ok st
  | (r, name) :: rest, st =>
    match r with
    | CallOutcome.timeout => aggregateResults co rest st
    | CallOutcome.exn _ => aggregateResults co rest st
    | CallOutcome.ok result =>
      match co.agents name with
      | none => Except.error ("KeyError: " ++ name)
      | some a =>
        aggregateResults co rest
          { contents := st.contents ++ ["**" ++ a.role ++ ":**\n" ++ result.content]
            all_suggestions := st.all_suggestions ++ result.suggestions
            all_data := pyUpdate st.all_data result.data
            total_tokens_in := st.total_tokens_in + result.tokens_input
            total_tokens_out := st.total_tokens_out + result.tokens_output
            agents_used := st.agents_used ++ [result.agent_name] }

def emptyAggState : AggState :=
  { contents := [], all_suggestions := [], all_data := []
    total_tokens_in := 0, total_tokens_out := 0, agents_used := [] }

/-- Python `sep.join(parts)`. -/
def pyJoin (sep : String) : List String → String
  | [] => ""
  | [a] => a
  | a :: rest => a ++ sep ++ pyJoin sep rest

def execute_multi_agent (co : AgentCoordinator) (message : String)
    (routing : RoutingDecision) (ctx : ConversationContext) :
    Except String OrchestratorResponse :=
  let agent_names := selectedNames co routing
  let results := buildTasks co message ctx agent_names
  match aggregateResults co (results.zip agent_names) emptyAggState with
  | Except.error e => Except.error e
  | Except.ok st =>
    Except.ok
      { content :=
          if st.contents.isEmpty then noResponseContent
          else pyJoin "\n\n---\n\n" st.contents
        primary_agent := routing.agent_name
        all_agents_used := st.agents_used
        session_id := ctx.session_id
        suggestions := st.all_suggestions.take 5
        data := st.all_data
        total_tokens_input := st.total_tokens_in
        total_tokens_output := st.total_tokens_out }

/-- Branch condition of process_message:
`routing.is_multi_agent and routing.secondary_agents` (Python truthiness:
the multi path runs only when the list is non-None and nonempty). -/
def multiPathTaken (routing : RoutingDecision) : Bool :=
  routing.is_multi_agent && !(routing.secondary_agents.getD []).isEmpty

/-- process_message from coordinator.py.  The context is returned alongside
the outcome: the source invokes only the read-only context operations
to_dict and get_recent_messages, so the returned context is the input one.
A raised KeyError from the multi-agent path propagates as Except.error. -/
def process_message (co : AgentCoordinator) (message : String)
    (ctx : ConversationContext) :
    Except String OrchestratorResponse × ConversationContext :=
  let routing := classify_intent message
  let res :=
    if multiPathTaken routing then
      execute_multi_agent co message routing ctx
    else
      Except.ok (execute_single_agent co message routing ctx)
  match res with
  | Except.ok response =>
    (Except.ok { response with
        routing_decision := some
          { agent := routing.agent_name
            confidence := routing.confidence
            category := routing.intent_category
            is_multi := routing.is_multi_agent }
        total_latency_ms := 0 },
     ctx)
  | Except.error e => (Except.error e, ctx)

/-- Projection helpers for stating properties of coordinator outcomes. -/
def allAgentsUsedOf : Except String OrchestratorResponse → Option (List String)
  | Except.ok r => some r.all_agents_used
  | Except.error _ => none

def primaryAgentOf : Except String OrchestratorResponse → Option String
  | Except.ok r => some r.primary_agent
  | Except.error _ => none

def contentOf : Except String OrchestratorResponse → Option String
  | Except.ok r => some r.content
  | Except.error _ => none

/-
Summary functions used to state properties, and concrete fixtures for the
claims about the coordinator and the context.
-/

def exCtx9 : ConversationContext :=
  { session_id := "s9"
    conversation_history :=
      [{ role := "user", content := "a", agent := none, timestamp := "t1" },
       { role := "assistant", content := "b", agent := some "jazz_teacher", timestamp := "t2" }] }

def exCtx4 : ConversationContext :=
  { session_id := "s4"
    conversation_history :=
      [{ role := "system", content := "note", agent := none, timestamp := "t0" }] }

def sysNote : Message :=
  { role := "system", content := "note", agent := none, timestamp := "t0" }

def pyMaxEntry (x : String × Nat) (xs : List (String × Nat)) : String × Nat :=
  xs.foldl (fun acc y => if acc.2 < y.2 then y else acc) x

def agentCallResult (co : AgentCoordinator) (message : String)
    (ctx : ConversationContext) (n : String) : Option CallOutcome :=
  (co.agents n).map (fun a => a.think message ctx.to_dict (ctx.get_recent_messages 10))

def multiSuccesses (co : AgentCoordinator) (message : String)
    (ctx : ConversationContext) (names : List String) : List (String × AgentResponse) :=
  names.filterMap (fun n =>
    match agentCallResult co message ctx n with
    | some (CallOutcome.ok r) => some (n, r)
    | _ => none)

def roleOf (co : AgentCoordinator) (n : String) : String :=
  ((co.agents n).map (fun a => a.role)).getD ""

def blockOf (co : AgentCoordinator) (p : String × AgentResponse) : String :=
  "**" ++ roleOf co p.1 ++ ":**\n" ++ p.2.content

def ctx0 : ConversationContext := { session_id := "sess" }

def timeoutJazzAgent : AgentSpec :=
  { role := "Jazz Teacher", think := fun _ _ _ => CallOutcome.timeout }

def co3 : AgentCoordinator :=
  { agents := fun n => if n = "jazz_teacher" then some timeoutJazzAgent else none }

def emptyCo : AgentCoordinator := { agents := fun _ => none }

def sqlOkResponse : AgentResponse := { content := "rows", agent_name := "sql_expert" }

def jazzOkResponse : AgentResponse := { content := "swing", agent_name := "jazz_teacher" }

def sqlOkAgent : AgentSpec :=
  { role := "SQL Expert", think := fun _ _ _ => CallOutcome.ok sqlOkResponse }

def luthierFailAgent : AgentSpec :=
  { role := "Luthier Historian", think := fun _ _ _ => CallOutcome.exn "boom" }

def jazzOkAgent : AgentSpec :=
  { role := "Jazz Teacher", think := fun _ _ _ => CallOutcome.ok jazzOkResponse }

def co8 : AgentCoordinator :=
  { agents := fun n =>
      if n = "sql_expert" then some sqlOkAgent
      else if n = "luthier_historian" then some luthierFailAgent
      else if n = "jazz_teacher" then some jazzOkAgent
      else none }

-- sanity checks mirroring the repository's own router tests
example : (classify_intent "Tell me about the Gibson L-5 archtop guitar history").agent_name
    = "luthier_historian" := by decide
example : (classify_intent "How many scales are in the database?").agent_name
    = "sql_expert" := by decide
example : (classify_intent "hello").agent_name = "jazz_teacher" := by decide
example : (classify_intent "hello").confidence = 0.5 := rfl

/-
Helper lemmas about the score computation.
-/

lemma groupScore_foldl_eq (ps : List (List (List Atom))) (w : Nat) (m : List Char)
    (h : ∀ p ∈ ps, reSearch p m = false) (s : Nat) :
    ps.foldl (fun s p => if reSearch p m then s + w else s) s = s := by
  induction ps generalizing s with
  | nil => rfl
  | cons p ps ih =>
    have hp : reSearch p m = false := h p (by simp)
    simp only [List.foldl_cons, hp, if_neg Bool.false_ne_true]
    exact ih (fun q hq => h q (by simp [hq])) s

lemma groupScore_eq_zero (ps : List (List (List Atom))) (w : Nat) (m : List Char)
    (h : ∀ p ∈ ps, reSearch p m = false) : groupScore ps w m = 0 :=
  groupScore_foldl_eq ps w m h 0

/-- C7: for any message in which no luthier entity occurs as a substring and
no pattern of any of the four groups matches (the empty and whitespace-only
strings among them), classify_intent returns the fixed default: agent
"jazz_teacher", confidence exactly 0.5, category "general", and no
multi-agent dispatch.  The function is total, so no error is possible. -/
theorem claim7_default (msg : String)
    (hent : luthierEntityHit (normalizeMsg msg) = false)
    (hpat : ∀ p ∈ HISTORY_PATTERNS ++ JAZZ_THEORY_PATTERNS ++
        DATA_QUERY_PATTERNS ++ SYSTEM_PATTERNS, reSearch p (normalizeMsg msg) = false) :
    (classify_intent msg).agent_name = "jazz_teacher" ∧
    (classify_intent msg).confidence = 0.5 ∧
    (classify_intent msg).intent_category = "general" ∧
    (classify_intent msg).is_multi_agent = false ∧
    (classify_intent msg).secondary_agents = none := by
  have hlu : luthierScore (normalizeMsg msg) = 0 := by
    unfold luthierScore
    rw [hent, groupScore_eq_zero _ _ _
      (fun p hp => hpat p (by simp [hp]))]
    simp
  have hjz : jazzScore (normalizeMsg msg) = 0 :=
    groupScore_eq_zero _ _ _ (fun p hp => hpat p (by simp [hp]))
  have hsq : sqlScore (normalizeMsg msg) = 0 :=
    groupScore_eq_zero _ _ _ (fun p hp => hpat p (by simp [hp]))
  have hdv : devScore (normalizeMsg msg) = 0 :=
    groupScore_eq_zero _ _ _ (fun p hp => hpat p (by simp [hp]))
  unfold classify_intent
  simp [computeScores, maxScoreOf, hlu, hjz, hsq, hdv]

/-- C7 witness: the empty string classifies to the default decision. -/
theorem claim7_witness :
    (classify_intent "").agent_name = "jazz_teacher" ∧
    (classify_intent "").confidence = 0.5 ∧
    (classify_intent "").intent_category = "general" ∧
    (classify_intent "").is_multi_agent = false ∧
    (classify_intent "").secondary_agents = none :=
  claim7_default "" (by decide) (by decide)

/-- C1: evaluation of the router at the failing input of the claim.  The code
returns "jazz_teacher" (the jazz patterns "key" and "jazz" score 2.0, beating
the 1.5 of "how many"), with "sql_expert" only as a secondary agent; the
repository's own test input "List all jazz standards in the key of Bb"
(asserted to route to "sql_expert" in tests/test_agents/test_router.py)
likewise yields "jazz_teacher". -/
theorem claim1_eval :
    (classify_intent "How many jazz standards are in the key of Bb?").agent_name
      = "jazz_teacher" ∧
    (classify_intent "How many jazz standards are in the key of Bb?").secondary_agents
      = some ["sql_expert"] ∧
    (classify_intent "List all jazz standards in the key of Bb").agent_name
      = "jazz_teacher" := by decide

/-- C9: get_recent_messages returns the last `min n (length)` entries in
history order for n >= 1, and the whole history for n = 0 (the Python slice
`[-0:]` is the full list). -/
theorem claim9_recent_slice (ctx : ConversationContext) (n : Nat) :
    (1 ≤ n →
      ctx.get_recent_messages n =
        (ctx.conversation_history.drop (ctx.conversation_history.length - n)).map
          (fun m => RoleContent.mk m.role m.content) ∧
      (ctx.get_recent_messages n).length = min n ctx.conversation_history.length) ∧
    ctx.get_recent_messages 0 =
      ctx.conversation_history.map (fun m => RoleContent.mk m.role m.content) := by
  constructor
  · intro hn
    have hne : n ≠ 0 := by omega
    constructor
    · simp [ConversationContext.get_recent_messages, pyTail, hne]
    · unfold ConversationContext.get_recent_messages pyTail
      rw [if_neg hne]
      simp only [List.length_map, List.length_drop]
      omega
  · simp [ConversationContext.get_recent_messages, pyTail]

/-- C9 witness: on a two-entry history, n = 1 keeps exactly the last entry. -/
theorem claim9_witness :
    (1 ≤ 1) ∧
    (exCtx9.get_recent_messages 1).length = min 1 exCtx9.conversation_history.length :=
  ⟨by decide, ((claim9_recent_slice exCtx9 1).1 (by decide)).2⟩

/-- C4 counterexample: an entry whose role is "system" (neither "user" nor
"assistant") is NOT filtered out: it is returned, reduced to role/content. -/
theorem claim4_counterexample :
    exCtx4.get_recent_messages 10 = [{ role := "system", content := "note" }] ∧
    "system" ≠ "user" ∧ "system" ≠ "assistant" := by decide

/-- C4 amended: get_recent_messages reduces the last n history entries to
role/content pairs (agent and timestamp stripped), with no role filtering:
every entry of the slice survives, whatever its role. -/
theorem claim4_reduction (ctx : ConversationContext) (n : Nat) (m : Message)
    (hm : m ∈ pyTail ctx.conversation_history n) :
    RoleContent.mk m.role m.content ∈ ctx.get_recent_messages n := by
  unfold ConversationContext.get_recent_messages
  exact List.mem_map_of_mem _ hm

/-- C4 witness: the "system" entry of the slice survives into the result. -/
theorem claim4_witness :
    sysNote ∈ pyTail exCtx4.conversation_history 10 ∧
    RoleContent.mk sysNote.role sysNote.content ∈ exCtx4.get_recent_messages 10 :=
  ⟨by decide, claim4_reduction exCtx4 10 sysNote (by decide)⟩

/-
Lemmas about the stable descending sort and the Python max-by-key fold.
-/

lemma pyMaxByScore_cons (x : String × Nat) (xs : List (String × Nat)) :
    pyMaxByScore (x :: xs) = (pyMaxEntry x xs).1 := rfl

lemma insert_head (x y : String × Nat) (ys : List (String × Nat)) :
    (insertByScoreDesc x (y :: ys)).head? = some (if y.2 ≤ x.2 then x else y) := by
  by_cases h : y.2 ≤ x.2 <;> simp [insertByScoreDesc, h]

lemma insert_insert_head (a b : String × Nat) (l : List (String × Nat)) :
    (insertByScoreDesc a (insertByScoreDesc b l)).head? =
    (insertByScoreDesc (if a.2 < b.2 then b else a) l).head? := by
  cases l with
  | nil =>
    rw [show insertByScoreDesc b [] = [b] from rfl, insert_head]
    by_cases hab : a.2 < b.2
    · have hba : ¬ b.2 ≤ a.2 := by omega
      simp [hab, hba, insertByScoreDesc]
    · have hba : b.2 ≤ a.2 := by omega
      simp [hab, hba, insertByScoreDesc]
  | cons c t =>
    by_cases hcb : c.2 ≤ b.2
    · have h1 : insertByScoreDesc b (c :: t) = b :: c :: t := by
        simp [insertByScoreDesc, hcb]
      rw [h1, insert_head a b (c :: t)]
      by_cases hab : a.2 < b.2
      · have hba : ¬ b.2 ≤ a.2 := by omega
        rw [if_pos hab, insert_head b c t]
        simp [hba, hcb]
      · have hba : b.2 ≤ a.2 := by omega
        have hca : c.2 ≤ a.2 := le_trans hcb hba
        rw [if_neg hab, insert_head a c t]
        simp [hba, hca]
    · have h1 : insertByScoreDesc b (c :: t) = c :: insertByScoreDesc b t := by
        simp [insertByScoreDesc, hcb]
      rw [h1, insert_head a c (insertByScoreDesc b t)]
      by_cases hab : a.2 < b.2
      · have hca : ¬ c.2 ≤ a.2 := by omega
        rw [if_pos hab, insert_head b c t]
        simp [hca, hcb]
      · rw [if_neg hab, insert_head a c t]

/-- Head of the stable descending sort is exactly the entry Python's
`max(scores, key=scores.get)` picks: the first entry attaining the maximum. -/
lemma sort_cons_head (x : String × Nat) (xs : List (String × Nat)) :
    (sortByScoreDesc (x :: xs)).head? = some (pyMaxEntry x xs) := by
  induction xs generalizing x with
  | nil => rfl
  | cons y ys ih =>
    have h1 : sortByScoreDesc (x :: y :: ys) =
        insertByScoreDesc x (insertByScoreDesc y (sortByScoreDesc ys)) := rfl
    rw [h1, insert_insert_head]
    have h2 : insertByScoreDesc (if x.2 < y.2 then y else x) (sortByScoreDesc ys) =
        sortByScoreDesc ((if x.2 < y.2 then y else x) :: ys) := rfl
    rw [h2, ih]
    rfl

lemma insert_perm (x : String × Nat) (l : List (String × Nat)) :
    List.Perm (insertByScoreDesc x l) (x :: l) := by
  induction l with
  | nil => exact List.Perm.refl _
  | cons y ys ih =>
    unfold insertByScoreDesc
    by_cases h : y.2 ≤ x.2
    · rw [if_pos h]
    · rw [if_neg h]
      exact (List.Perm.cons y ih).trans (List.Perm.swap x y ys)

lemma sort_perm (l : List (String × Nat)) : List.Perm (sortByScoreDesc l) l := by
  induction l with
  | nil => exact List.Perm.refl _
  | cons x xs ih => exact (insert_perm x (sortByScoreDesc xs)).trans (List.Perm.cons x ih)

/-- Invariant of the nonzero routing branch, for any scores list with
pairwise-distinct agent names: the multi-agent flag holds exactly when the
secondary list is nonempty, and the winner never appears among the
secondaries. -/
lemma nonzero_invariant (m : List Char) (scores : List (String × Nat))
    (hnd : (scores.map Prod.fst).Nodup) (hne : scores ≠ []) :
    ((nonzeroDecision m scores).is_multi_agent = true ↔
      (nonzeroDecision m scores).secondary_agents.getD [] ≠ []) ∧
    (nonzeroDecision m scores).agent_name ∉
      (nonzeroDecision m scores).secondary_agents.getD [] := by
  by_cases hc : multiCondition scores = true
  · have hfields :
        (nonzeroDecision m scores).is_multi_agent = true ∧
        (nonzeroDecision m scores).secondary_agents = some (secondaryList scores) ∧
        (nonzeroDecision m scores).agent_name = pyMaxByScore scores := by
      refine ⟨hc, ?_, rfl⟩
      simp [nonzeroDecision, hc]
    obtain ⟨hf1, hf2, hf3⟩ := hfields
    -- unpack the condition
    have hc' := hc
    unfold multiCondition at hc'
    simp only [Bool.and_eq_true, decide_eq_true_eq] at hc'
    obtain ⟨⟨hlen, hpos⟩, -⟩ := hc'
    -- decompose the sorted list
    obtain ⟨e0, e1, rest, hsort⟩ :
        ∃ e0 e1 rest, sortByScoreDesc scores = e0 :: e1 :: rest := by
      rcases hL : sortByScoreDesc scores with _ | ⟨a, _ | ⟨b, t⟩⟩
      · rw [hL] at hlen; simp at hlen
      · rw [hL] at hlen; simp at hlen
      · exact ⟨a, b, t, rfl⟩
    have he1 : (0 : Nat) < e1.2 := by
      rw [hsort] at hpos; simpa using hpos
    -- the secondary list contains e1's name
    have hmem : e1.1 ∈ secondaryList scores := by
      unfold secondaryList
      rw [hsort]
      simp only [List.drop_succ_cons, List.drop_zero]
      exact List.mem_map_of_mem _ (List.mem_filter_of_mem (by simp) (by simpa using he1))
    have hnonempty : secondaryList scores ≠ [] := by
      intro h0; rw [h0] at hmem; exact absurd hmem (List.not_mem_nil _)
    -- the winner is the sorted head
    obtain ⟨s0, stail, hs⟩ : ∃ s0 stail, scores = s0 :: stail := by
      rcases scores with _ | ⟨s0, stail⟩
      · exact absurd rfl hne
      · exact ⟨s0, stail, rfl⟩
    have hwin : pyMaxByScore scores = e0.1 := by
      have h1 := sort_cons_head s0 stail
      rw [← hs, hsort] at h1
      simp only [List.head?_cons, Option.some.injEq] at h1
      rw [hs, pyMaxByScore_cons, ← h1]
    -- distinct names transfer along the sort
    have hndL : ((sortByScoreDesc scores).map Prod.fst).Nodup :=
      ((sort_perm scores).map Prod.fst).nodup_iff.mpr hnd
    rw [hsort] at hndL
    simp only [List.map_cons, List.nodup_cons, List.mem_cons, List.mem_map] at hndL
    have hnotin : e0.1 ∉ (e1 :: rest).map Prod.fst := by
      intro hcontra
      simp only [List.map_cons, List.mem_cons, List.mem_map] at hcontra
      rcases hcontra with h | ⟨x, hx, hxe⟩
      · exact hndL.1 (Or.inl h)
      · exact hndL.1 (Or.inr ⟨x, hx, hxe⟩)
    have hnotin2 : pyMaxByScore scores ∉ secondaryList scores := by
      rw [hwin]
      intro hcontra
      unfold secondaryList at hcontra
      rw [hsort] at hcontra
      simp only [List.drop_succ_cons, List.drop_zero] at hcontra
      obtain ⟨x, hxf, hxe⟩ := List.mem_map.mp hcontra
      exact hnotin (hxe ▸ List.mem_map_of_mem _ (List.mem_of_mem_filter hxf))
    refine ⟨?_, ?_⟩
    · rw [hf1, hf2]
      simp only [Option.getD_some]
      simp [hnonempty]
    · rw [hf3, hf2]
      simp only [Option.getD_some]
      exact hnotin2
  · have hf1 : (nonzeroDecision m scores).is_multi_agent = false := by
      simpa [nonzeroDecision] using Bool.eq_false_iff.mpr hc
    have hf2 : (nonzeroDecision m scores).secondary_agents = none := by
      simp [nonzeroDecision, hc]
    rw [hf1, hf2]
    simp

/-- C6: for every message, the routing decision's multi-agent flag holds
exactly when the secondary-agent list is nonempty, and the primary agent
never appears among the secondaries (ties at the top included). -/
theorem claim6_multi_agent_invariant (msg : String) :
    ((classify_intent msg).is_multi_agent = true ↔
      (classify_intent msg).secondary_agents.getD [] ≠ []) ∧
    (classify_intent msg).agent_name ∉ (classify_intent msg).secondary_agents.getD [] := by
  unfold classify_intent
  dsimp only
  by_cases hmax : maxScoreOf (computeScores (normalizeMsg msg)) = 0
  · rw [if_pos hmax]
    simp
  · rw [if_neg hmax]
    have hnd : (List.map Prod.fst (computeScores (normalizeMsg msg))).Nodup := by
      rw [show List.map Prod.fst (computeScores (normalizeMsg msg)) =
        ["luthier_historian", "jazz_teacher", "sql_expert", "dev_pm"] from rfl]
      decide
    exact nonzero_invariant _ _ hnd (by simp [computeScores])

/-- Winner selection when the first listed agent's score is at least every
other score: Python's max-by-key keeps the first maximal entry. -/
lemma pyMax_first (n1 n2 n3 n4 : String) (a b c d : Nat)
    (h2 : b ≤ a) (h3 : c ≤ a) (h4 : d ≤ a) :
    pyMaxByScore [(n1, a), (n2, b), (n3, c), (n4, d)] = n1 := by
  simp only [pyMaxByScore, List.foldl_cons, List.foldl_nil]
  rw [if_neg (by omega : ¬ (n1, a).2 < (n2, b).2)]
  rw [if_neg (by omega : ¬ (n1, a).2 < (n3, c).2)]
  rw [if_neg (by omega : ¬ (n1, a).2 < (n4, d).2)]

/-- C2 counterexample: "gibson chord jazz practice improvise test" contains
the known entity "gibson", yet classify routes it to "jazz_teacher" (five
jazz patterns score 5.0, beating the 3.0 entity bonus). -/
theorem claim2_counterexample :
    luthierEntityHit (normalizeMsg "gibson chord jazz practice improvise test") = true ∧
    (classify_intent "gibson chord jazz practice improvise test").agent_name
      ≠ "luthier_historian" ∧
    (classify_intent "gibson chord jazz practice improvise test").agent_name
      = "jazz_teacher" := by decide

/-- C2 amended: a message containing a known entity always gives the luthier
agent its 3.0 bonus, and classify returns "luthier_historian" whenever no
other agent's pattern score exceeds the luthier total (ties at the top
resolve to the luthier agent, first in dictionary order). -/
theorem claim2_entity_bonus (msg : String)
    (hent : luthierEntityHit (normalizeMsg msg) = true)
    (hjz : jazzScore (normalizeMsg msg) ≤ luthierScore (normalizeMsg msg))
    (hsq : sqlScore (normalizeMsg msg) ≤ luthierScore (normalizeMsg msg))
    (hdv : devScore (normalizeMsg msg) ≤ luthierScore (normalizeMsg msg)) :
    (classify_intent msg).agent_name = "luthier_historian" := by
  have ha : 6 ≤ luthierScore (normalizeMsg msg) := by
    unfold luthierScore
    rw [hent]
    simp
  unfold classify_intent
  dsimp only
  have hmax : ¬ maxScoreOf (computeScores (normalizeMsg msg)) = 0 := by
    simp only [computeScores, maxScoreOf, List.foldl_cons, List.foldl_nil]
    omega
  rw [if_neg hmax]
  show pyMaxByScore (computeScores (normalizeMsg msg)) = "luthier_historian"
  rw [show computeScores (normalizeMsg msg) =
    [("luthier_historian", luthierScore (normalizeMsg msg)),
     ("jazz_teacher", jazzScore (normalizeMsg msg)),
     ("sql_expert", sqlScore (normalizeMsg msg)),
     ("dev_pm", devScore (normalizeMsg msg))] from rfl]
  exact pyMax_first _ _ _ _ _ _ _ _ hjz hsq hdv

/-- C2 witness: the single-entity message "gibson" routes to the luthier agent. -/
theorem claim2_witness :
    luthierEntityHit (normalizeMsg "gibson") = true ∧
    (classify_intent "gibson").agent_name = "luthier_historian" :=
  ⟨by decide, claim2_entity_bonus "gibson" (by decide) (by decide) (by decide) (by decide)⟩

/-- C10: process_message never mutates the conversation context: the context
after the call (threaded through the embedding) is the input context, field
for field; the source invokes only the read-only operations to_dict and
get_recent_messages. -/
theorem claim10_context_frame (co : AgentCoordinator) (msg : String)
    (ctx : ConversationContext) :
    (process_message co msg ctx).2 = ctx ∧
    (process_message co msg ctx).2.conversation_history = ctx.conversation_history ∧
    (process_message co msg ctx).2.agent_routing_history = ctx.agent_routing_history ∧
    (process_message co msg ctx).2.active_quiz = ctx.active_quiz ∧
    (process_message co msg ctx).2.active_lesson = ctx.active_lesson := by
  have h : (process_message co msg ctx).2 = ctx := by
    unfold process_message
    dsimp only
    split <;> rfl
  exact ⟨h, by rw [h], by rw [h], by rw [h], by rw [h]⟩

/-- Aggregation under a fully-present capability map: the loop cannot raise,
and it accumulates exactly the successful responses, in task order. -/
lemma aggregate_all_present (co : AgentCoordinator) (message : String)
    (ctx : ConversationContext) (names : List String) (st : AggState)
    (hpres : ∀ n ∈ names, (co.agents n).isSome) :
    ∃ st', aggregateResults co ((buildTasks co message ctx names).zip names) st
        = Except.ok st' ∧
      st'.agents_used = st.agents_used ++
        (multiSuccesses co message ctx names).map (fun p => p.2.agent_name) ∧
      st'.contents = st.contents ++
        (multiSuccesses co message ctx names).map (blockOf co) := by
  induction names generalizing st with
  | nil =>
    exact ⟨st, rfl, by simp [multiSuccesses, buildTasks], by simp [multiSuccesses, buildTasks]⟩
  | cons n ns ih =>
    obtain ⟨a, ha⟩ := Option.isSome_iff_exists.mp (hpres n (by simp))
    have hpres' : ∀ x ∈ ns, (co.agents x).isSome := fun x hx => hpres x (by simp [hx])
    have hbuild : buildTasks co message ctx (n :: ns) =
        a.think message ctx.to_dict (ctx.get_recent_messages 10) ::
          buildTasks co message ctx ns := by
      simp [buildTasks, List.filterMap_cons, ha]
    cases hthink : a.think message ctx.to_dict (ctx.get_recent_messages 10) with
    | ok r =>
      have hsucc : multiSuccesses co message ctx (n :: ns) =
          (n, r) :: multiSuccesses co message ctx ns := by
        simp [multiSuccesses, List.filterMap_cons, agentCallResult, ha, hthink]
      obtain ⟨st', h1, h2, h3⟩ := ih
        { contents := st.contents ++ [blockOf co (n, r)]
          all_suggestions := st.all_suggestions ++ r.suggestions
          all_data := pyUpdate st.all_data r.data
          total_tokens_in := st.total_tokens_in + r.tokens_input
          total_tokens_out := st.total_tokens_out + r.tokens_output
          agents_used := st.agents_used ++ [r.agent_name] } hpres'
      refine ⟨st', ?_, ?_, ?_⟩
      · rw [hbuild, hthink, List.zip_cons_cons]
        show aggregateResults co _ _ = _
        rw [show aggregateResults co ((CallOutcome.ok r, n) ::
            (buildTasks co message ctx ns).zip ns) st =
          aggregateResults co ((buildTasks co message ctx ns).zip ns)
            { contents := st.contents ++ ["**" ++ a.role ++ ":**\n" ++ r.content]
              all_suggestions := st.all_suggestions ++ r.suggestions
              all_data := pyUpdate st.all_data r.data
              total_tokens_in := st.total_tokens_in + r.tokens_input
              total_tokens_out := st.total_tokens_out + r.tokens_output
              agents_used := st.agents_used ++ [r.agent_name] } from by
          simp [aggregateResults, ha]]
        rw [show ("**" ++ a.role ++ ":**\n" ++ r.content) = blockOf co (n, r) from by
          simp [blockOf, roleOf, ha]]
        exact h1
      · rw [h2, hsucc]
        simp
      · rw [h3, hsucc]
        simp
    | timeout =>
      have hsucc : multiSuccesses co message ctx (n :: ns) =
          multiSuccesses co message ctx ns := by
        simp [multiSuccesses, List.filterMap_cons, agentCallResult, ha, hthink]
      obtain ⟨st', h1, h2, h3⟩ := ih st hpres'
      refine ⟨st', ?_, by rw [h2, hsucc], by rw [h3, hsucc]⟩
      rw [hbuild, hthink, List.zip_cons_cons]
      exact h1
    | exn e =>
      have hsucc : multiSuccesses co message ctx (n :: ns) =
          multiSuccesses co message ctx ns := by
        simp [multiSuccesses, List.filterMap_cons, agentCallResult, ha, hthink]
      obtain ⟨st', h1, h2, h3⟩ := ih st hpres'
      refine ⟨st', ?_, by rw [h2, hsucc], by rw [h3, hsucc]⟩
      rw [hbuild, hthink, List.zip_cons_cons]
      exact h1

/-- Multi-agent execution under a fully-present capability map: no KeyError,
all_agents_used lists exactly the successful responses' agent names in task
order, and the content joins their labeled blocks. -/
lemma execute_multi_spec (co : AgentCoordinator) (message : String)
    (ctx : ConversationContext) (routing : RoutingDecision)
    (hpres : ∀ n ∈ selectedNames co routing, (co.agents n).isSome) :
    ∃ r, execute_multi_agent co message routing ctx = Except.ok r ∧
      r.all_agents_used = (multiSuccesses co message ctx
        (selectedNames co routing)).map (fun p => p.2.agent_name) ∧
      r.primary_agent = routing.agent_name ∧
      r.content =
        (if ((multiSuccesses co message ctx (selectedNames co routing)).map
              (blockOf co)).isEmpty
         then noResponseContent
         else pyJoin "\n\n---\n\n" ((multiSuccesses co message ctx
              (selectedNames co routing)).map (blockOf co))) := by
  obtain ⟨st', h1, h2, h3⟩ :=
    aggregate_all_present co message ctx (selectedNames co routing) emptyAggState hpres
  have he : execute_multi_agent co message routing ctx = Except.ok
      { content := if st'.contents.isEmpty then noResponseContent
                   else pyJoin "\n\n---\n\n" st'.contents
        primary_agent := routing.agent_name
        all_agents_used := st'.agents_used
        session_id := ctx.session_id
        suggestions := st'.all_suggestions.take 5
        data := st'.all_data
        total_tokens_input := st'.total_tokens_in
        total_tokens_output := st'.total_tokens_out } := by
    unfold execute_multi_agent
    dsimp only
    rw [h1]
  have h2' : st'.agents_used = (multiSuccesses co message ctx
      (selectedNames co routing)).map (fun p => p.2.agent_name) := by
    simpa [emptyAggState] using h2
  have h3' : st'.contents = (multiSuccesses co message ctx
      (selectedNames co routing)).map (blockOf co) := by
    simpa [emptyAggState] using h3
  refine ⟨_, he, ?_, rfl, ?_⟩
  · simpa using h2'
  · simp [h3']

/-- An everywhere-empty capability map yields no tasks. -/
lemma buildTasks_empty (co : AgentCoordinator) (message : String)
    (ctx : ConversationContext) (names : List String)
    (hempty : ∀ n, co.agents n = none) :
    buildTasks co message ctx names = [] := by
  induction names with
  | nil => rfl
  | cons n ns ih => simp [buildTasks, List.filterMap_cons, hempty n]; simpa [buildTasks] using ih

/-- C3 counterexample: in the single-agent path a timed-out agent DOES appear
in all_agents_used: the jazz agent times out on "hello", yet the response
carries all_agents_used = ["jazz_teacher"] although no agent returned
successfully. -/
theorem claim3_counterexample :
    agentCallResult co3 "hello" ctx0 "jazz_teacher" = some CallOutcome.timeout ∧
    allAgentsUsedOf (process_message co3 "hello" ctx0).1 = some ["jazz_teacher"] := by
  decide

/-- C3 amended: in the multi-agent path all_agents_used is exactly the
successfully returning agents; in the single-agent path it is the single
routed agent in every outcome — on success the response's own agent name,
and on timeout or exception still the attempted agent's name (failed agents
are NOT excluded there). -/
theorem claim3_agents_used (co : AgentCoordinator) (message : String)
    (ctx : ConversationContext)
    (hpres : ∀ n ∈ selectedNames co (classify_intent message), (co.agents n).isSome) :
    (multiPathTaken (classify_intent message) = true →
      allAgentsUsedOf (process_message co message ctx).1 =
        some ((multiSuccesses co message ctx
          (selectedNames co (classify_intent message))).map (fun p => p.2.agent_name))) ∧
    (multiPathTaken (classify_intent message) = false →
      allAgentsUsedOf (process_message co message ctx).1 =
        some (match agentCallResult co message ctx (classify_intent message).agent_name with
              | some (CallOutcome.ok r) => [r.agent_name]
              | _ => [(classify_intent message).agent_name])) := by
  constructor
  · intro hm
    unfold process_message
    dsimp only
    rw [hm, if_pos rfl]
    obtain ⟨r, he, h1, h2, h3⟩ := execute_multi_spec co message ctx (classify_intent message) hpres
    rw [he]
    simpa [allAgentsUsedOf] using h1
  · intro hm
    unfold process_message
    dsimp only
    rw [hm]
    simp only [Bool.false_eq_true, if_false]
    obtain ⟨a, ha⟩ := Option.isSome_iff_exists.mp
      (hpres (classify_intent message).agent_name (by simp [selectedNames]))
    unfold execute_single_agent
    rw [ha]
    cases hthink : a.think message ctx.to_dict (ctx.get_recent_messages 10) with
    | ok r => simp [allAgentsUsedOf, agentCallResult, ha, hthink]
    | timeout => simp [allAgentsUsedOf, agentCallResult, ha, hthink]
    | exn e => simp [allAgentsUsedOf, agentCallResult, ha, hthink]

/-- C3 witness: the amended single-path clause applied to the timing-out
jazz agent. -/
theorem claim3_witness :
    (∀ n ∈ selectedNames co3 (classify_intent "hello"), (co3.agents n).isSome) ∧
    multiPathTaken (classify_intent "hello") = false ∧
    allAgentsUsedOf (process_message co3 "hello" ctx0).1 = some ["jazz_teacher"] := by
  refine ⟨by decide, by decide, ?_⟩
  exact ((claim3_agents_used co3 "hello" ctx0 (by decide)).2 (by decide)).trans (by decide)

/-- C5 counterexample: with an empty capability map, a message whose routing
is multi-agent yields primary_agent = "jazz_teacher" (the routed primary),
not "orchestrator" as claimed. -/
theorem claim5_counterexample :
    primaryAgentOf (process_message emptyCo
      "How many jazz standards are in the key of Bb?" ctx0).1 = some "jazz_teacher" ∧
    allAgentsUsedOf (process_message emptyCo
      "How many jazz standards are in the key of Bb?" ctx0).1 = some [] ∧
    ("jazz_teacher" : String) ≠ "orchestrator" := by decide

/-- C5 amended: with an empty capability map, process_message never raises
and always returns all_agents_used = []; primary_agent is "orchestrator"
exactly on the single-agent path, while the multi-agent path reports the
classifier's primary agent. -/
theorem claim5_empty_map (co : AgentCoordinator) (message : String)
    (ctx : ConversationContext) (hempty : ∀ n, co.agents n = none) :
    allAgentsUsedOf (process_message co message ctx).1 = some [] ∧
    (multiPathTaken (classify_intent message) = false →
      primaryAgentOf (process_message co message ctx).1 = some "orchestrator") ∧
    (multiPathTaken (classify_intent message) = true →
      primaryAgentOf (process_message co message ctx).1 =
        some (classify_intent message).agent_name) := by
  have hmulti : execute_multi_agent co message (classify_intent message) ctx =
      Except.ok
        { content := noResponseContent
          primary_agent := (classify_intent message).agent_name
          all_agents_used := []
          session_id := ctx.session_id
          suggestions := []
          data := []
          total_tokens_input := 0
          total_tokens_output := 0 } := by
    unfold execute_multi_agent
    dsimp only
    rw [buildTasks_empty co message ctx _ hempty]
    rfl
  unfold process_message
  dsimp only
  by_cases hm : multiPathTaken (classify_intent message) = true
  · rw [hm, if_pos rfl, hmulti]
    exact ⟨rfl, fun hc => absurd hc (by simp), fun _ => rfl⟩
  · have hm' : multiPathTaken (classify_intent message) = false := by
      cases h : multiPathTaken (classify_intent message)
      · rfl
      · exact absurd h hm
    rw [hm']
    simp only [Bool.false_eq_true, if_false]
    unfold execute_single_agent
    rw [hempty (classify_intent message).agent_name]
    exact ⟨rfl, fun _ => rfl, fun hc => absurd hc (by simp)⟩

/-- C5 witness: the empty map on the single-routed message "hello". -/
theorem claim5_witness :
    (∀ n, emptyCo.agents n = none) ∧
    multiPathTaken (classify_intent "hello") = false ∧
    allAgentsUsedOf (process_message emptyCo "hello" ctx0).1 = some [] ∧
    primaryAgentOf (process_message emptyCo "hello" ctx0).1 = some "orchestrator" := by
  have h := claim5_empty_map emptyCo "hello" ctx0 (fun _ => rfl)
  exact ⟨fun _ => rfl, by decide, h.1, h.2.1 (by decide)⟩

/-- C8: in the multi-agent path with three selected capabilities all present,
of which exactly one fails (two successes recorded, in task order), the
response lists exactly the two successful agents and joins their two
role-labeled blocks with the separator, in issuance order. -/
theorem claim8_partial_failure (co : AgentCoordinator) (message : String)
    (ctx : ConversationContext) (na nb : String) (ra rb : AgentResponse)
    (hm : multiPathTaken (classify_intent message) = true)
    (hthree : (selectedNames co (classify_intent message)).length = 3)
    (hpres : ∀ n ∈ selectedNames co (classify_intent message), (co.agents n).isSome)
    (hsucc : multiSuccesses co message ctx (selectedNames co (classify_intent message))
      = [(na, ra), (nb, rb)]) :
    allAgentsUsedOf (process_message co message ctx).1 =
      some [ra.agent_name, rb.agent_name] ∧
    contentOf (process_message co message ctx).1 =
      some ("**" ++ roleOf co na ++ ":**\n" ++ ra.content ++ "\n\n---\n\n" ++
            ("**" ++ roleOf co nb ++ ":**\n" ++ rb.content)) := by
  unfold process_message
  dsimp only
  rw [hm, if_pos rfl]
  obtain ⟨r, he, h1, h2, h3⟩ := execute_multi_spec co message ctx (classify_intent message) hpres
  rw [he]
  rw [hsucc] at h1 h3
  constructor
  · simpa [allAgentsUsedOf] using h1
  · simp only [contentOf]
    rw [h3]
    simp [blockOf, pyJoin]

/-- C8 witness: "jazz history data" selects three agents (sql primary,
luthier and jazz secondaries); the luthier agent raises, the other two
succeed, and the response aggregates exactly those two in task order. -/
theorem claim8_witness :
    multiPathTaken (classify_intent "jazz history data") = true ∧
    (selectedNames co8 (classify_intent "jazz history data")).length = 3 ∧
    (∀ n ∈ selectedNames co8 (classify_intent "jazz history data"),
      (co8.agents n).isSome) ∧
    multiSuccesses co8 "jazz history data" ctx0
      (selectedNames co8 (classify_intent "jazz history data"))
      = [("sql_expert", sqlOkResponse), ("jazz_teacher", jazzOkResponse)] ∧
    allAgentsUsedOf (process_message co8 "jazz history data" ctx0).1 =
      some ["sql_expert", "jazz_teacher"] ∧
    contentOf (process_message co8 "jazz history data" ctx0).1 =
      some ("**SQL Expert:**\nrows\n\n---\n\n**Jazz Teacher:**\nswing") := by
  have h := claim8_partial_failure co8 "jazz history data" ctx0
    "sql_expert" "jazz_teacher" sqlOkResponse jazzOkResponse
    (by decide) (by decide) (by decide) (by decide)
  refine ⟨by decide, by decide, by decide, by decide, ?_, ?_⟩
  · exact h.1.trans (by decide)
  · exact h.2.trans (by decide)

end GuitarMastery
